import Mathlib

/-!
Shallow embedding of src/aws/s3/upload.py (class ObjectWrapper).

The remote S3 service is modelled as an association list from (bucket, key)
to a stored object (body bytes plus access-control policy).  Each facade
operation is a Lean function that mirrors the control flow of the Python
method line by line; remote client failures are injected through explicit
Option String arguments (a ClientError code, none meaning success), since
the Python code only branches on whether the boto3 call raises ClientError.
Every operation also returns the trace of events it performed: remote calls,
log lines (with their format template and arguments), and local file
open/close events.  This lets us state claims about call counts, resource
release and logging.
-/

/-- Owner identity of an ACL, mirroring the Owner dict of a boto3 ACL
(get_acl logs acl.owner with key DisplayName). -/
structure Owner where
  displayName : String
  ownerId : String
deriving DecidableEq, Repr

/-- A grantee, mirroring the Grantee dict built in put_acl: a Type string
and an identifier (EmailAddress for AmazonCustomerByEmail grantees, a URI
for group grantees). -/
structure Grantee where
  granteeType : String
  identifier : String
deriving DecidableEq, Repr

/-- One grant entry of an ACL, mirroring the dict appended in put_acl. -/
structure Grant where
  grantee : Grantee
  permission : String
deriving DecidableEq, Repr

/-- An access-control policy: owner plus grant list.  grants is an Option
because boto3 returns None for the Grants key of a policy with no grants;
put_acl tests its truthiness (acl.grants if acl.grants else []). -/
structure Acl where
  owner : Owner
  grants : Option (List Grant)
deriving DecidableEq, Repr

/-- Identity of a remote object: bucket name and key. -/
structure ObjId where
  bucket : String
  key : String
deriving DecidableEq, Repr

/-- A stored remote object: its body bytes and its ACL. -/
structure RemoteObject where
  body : List Nat
  acl : Acl
deriving DecidableEq, Repr

/-- The remote service state: the stored objects, as an association list. -/
abbrev S3State := List (ObjId × RemoteObject)

/-- The local filesystem seen by put when given a file name: a map from
path to readable content, none meaning open(path) raises IOError. -/
abbrev FileSystem := String → Option (List Nat)

/-- Events performed by an operation: local file handling, remote calls,
and log lines carrying the format template and the argument list. -/
inductive Event where
  | openFile (path : String) (ok : Bool)
  | closeHandle
  | remotePut
  | remoteWait
  | remoteGet
  | remoteList
  | remoteCopy
  | remoteAclRead
  | remoteAclWrite
  | logInfo (msg : String) (args : List String)
  | logError (msg : String) (args : List String)
deriving DecidableEq, Repr

/-- Errors surfaced by the facade: a remote ClientError with its error code
(the RemoteServiceError kind), or the local IOError raised when the file
given to put cannot be opened (the LocalResourceError kind). -/
inductive S3Err where
  | clientError (code : String)
  | ioError
deriving DecidableEq, Repr

/-- Whether an event is a call to the remote service. -/
def Event.isRemote : Event → Bool
  | .remotePut => true
  | .remoteWait => true
  | .remoteGet => true
  | .remoteList => true
  | .remoteCopy => true
  | .remoteAclRead => true
  | .remoteAclWrite => true
  | _ => false

/-- Number of remote calls in a trace. -/
def remoteCallCount (evs : List Event) : Nat :=
  (evs.filter Event.isRemote).length

/-- Lookup of an object in the remote state. -/
def lookupObj : S3State → ObjId → Option RemoteObject
  | [], _ => none
  | e :: rest, oid => if e.1 = oid then some e.2 else lookupObj rest oid

/-- Store (create or replace) an object in the remote state. -/
def setObj : S3State → ObjId → RemoteObject → S3State
  | [], oid, o => [(oid, o)]
  | e :: rest, oid, o => if e.1 = oid then (oid, o) :: rest else e :: setObj rest oid o

/-- Python str.startswith, used to model the server-side Prefix filter of
bucket.objects.filter(Prefix=p): the prefix is an initial segment of the key. -/
def strStartsWith (key pre : String) : Bool :=
  pre.data.isPrefixOf key.data

/-- The truthiness coercion in put_acl, line 119 of upload.py:
grants = acl.grants if acl.grants else [].  None and the empty list are
falsy in Python. -/
def grantsOrEmpty : Option (List Grant) → List Grant
  | none => []
  | some g => if g.isEmpty then [] else g

/-- The grant dict appended by put_acl, lines 120-126 of upload.py. -/
def readGrant (email : String) : Grant :=
  ⟨⟨"AmazonCustomerByEmail", email⟩, "READ"⟩

/-- Modelled from the spec: the canned public-read grant that the remote
service attaches when an object is put with ACL set to public-read
(the spec: a public-read access grant applied at creation).  The canned
ACL expansion happens inside the remote service, not in this repository. -/
def publicReadGrant : Grant :=
  ⟨⟨"Group", "http://acs.amazonaws.com/groups/global/AllUsers"⟩, "READ"⟩

/-- Modelled from the spec: the full ACL the remote service stores for an
object created with the public-read canned ACL. -/
def publicReadAcl (owner : Owner) : Acl :=
  ⟨owner, some [publicReadGrant]⟩

/-- The data argument of put: raw bytes, or a string interpreted as a local
file name opened in read-bytes mode (upload.py lines 17-24). -/
inductive PutData where
  | bytes (b : List Nat)
  | path (p : String)
deriving DecidableEq, Repr

/-- The bytes a put payload denotes: raw bytes directly, or the content of
the named local file when it is readable. -/
def payloadBytes (fs : FileSystem) : PutData → Option (List Nat)
  | .bytes b => some b
  | .path p => fs p

/-- The try block of put, upload.py lines 29-42: object.put with the
public-read ACL, wait_until_exists, info log; on ClientError, error log
and re-raise; the finally clause closes the handle when the payload has a
close attribute (a file handle does, raw bytes do not).  putFail and
waitFail inject a ClientError code into object.put and wait_until_exists.
If object.put succeeded, the remote object is stored even when the
subsequent wait fails. -/
def putOpened (oid : ObjId) (owner : Owner) (content : List Nat) (st : S3State)
    (putFail waitFail : Option String) (pre : List Event) (hasClose : Bool) :
    Except S3Err Unit × S3State × List Event :=
  let fin : List Event := if hasClose then [.closeHandle] else []
  let errLog : Event :=
    .logError "Could not put object %s to bucket %s." [oid.key, oid.bucket]
  match putFail with
  | some e => (.error (.clientError e), st, pre ++ [.remotePut, errLog] ++ fin)
  | none =>
      let st1 := setObj st oid ⟨content, publicReadAcl owner⟩
      match waitFail with
      | some e => (.error (.clientError e), st1, pre ++ [.remotePut, .remoteWait, errLog] ++ fin)
      | none =>
          (.ok (), st1,
            pre ++ [.remotePut, .remoteWait,
              .logInfo "Put object %s to bucket %s." [oid.key, oid.bucket]] ++ fin)

/-- ObjectWrapper.put, upload.py lines 13-42.  A string payload is opened
in read-bytes mode first; when open raises IOError, the error is logged and
re-raised before any remote call. -/
def ObjectWrapper.put (oid : ObjId) (owner : Owner) (data : PutData) (fs : FileSystem)
    (st : S3State) (putFail waitFail : Option String) :
    Except S3Err Unit × S3State × List Event :=
  match data with
  | .path p =>
      match fs p with
      | none =>
          (.error .ioError, st,
            [.openFile p false,
             .logError "Expected file name or binary data, got %s." [p]])
      | some content => putOpened oid owner content st putFail waitFail [.openFile p true] true
  | .bytes b => putOpened oid owner b st putFail waitFail [] false

/-- ObjectWrapper.get, upload.py lines 44-61: read the full body, log, and
on ClientError log and re-raise.  A missing object surfaces as the remote
client raising NoSuchKey.  get mutates no state. -/
def ObjectWrapper.get (oid : ObjId) (st : S3State) (fail : Option String) :
    Except S3Err (List Nat) × List Event :=
  let errLog : Event :=
    .logError "Could not get object %s from bucket %s." [oid.key, oid.bucket]
  match fail with
  | some e => (.error (.clientError e), [.remoteGet, errLog])
  | none =>
      match lookupObj st oid with
      | none => (.error (.clientError "NoSuchKey"), [.remoteGet, errLog])
      | some o =>
          (.ok o.body,
            [.remoteGet, .logInfo "Got object %s from bucket %s." [oid.key, oid.bucket]])

/-- The objects of a bucket, in the order the service state holds them. -/
def bucketEntries (st : S3State) (bucketName : String) : List (ObjId × RemoteObject) :=
  st.filter (fun e => e.1.bucket = bucketName)

/-- ObjectWrapper.list, upload.py lines 63-83.  Line 73 tests the
truthiness of the prefix (if not prefix), so both None and the empty
string select bucket.objects.all(); otherwise the Prefix filter keeps the
keys that start with the prefix. -/
def ObjectWrapper.list (st : S3State) (bucketName : String) (pfx : Option String)
    (fail : Option String) : Except S3Err (List (ObjId × RemoteObject)) × List Event :=
  match fail with
  | some e =>
      (.error (.clientError e),
        [.remoteList, .logError "Could not get objects for bucket %s." [bucketName]])
  | none =>
      let objects :=
        match pfx with
        | none => bucketEntries st bucketName
        | some p =>
            if p = "" then bucketEntries st bucketName
            else (bucketEntries st bucketName).filter (fun e => strStartsWith e.1.key p)
      (.ok objects,
        [.remoteList,
         .logInfo "Got objects %s from bucket %s."
           ((objects.map (fun e => e.1.key)) ++ [bucketName])])

/-- ObjectWrapper.copy, upload.py lines 85-106: dest.copy_from the source,
wait for the destination to exist, log; on ClientError log and re-raise.
A missing source surfaces as the remote client raising NoSuchKey.  The
destination receives the source bytes; its ACL is the service-assigned
default (the code passes no ACL to copy_from). -/
def ObjectWrapper.copy (srcOid destOid : ObjId) (owner : Owner) (st : S3State)
    (copyFail waitFail : Option String) : Except S3Err Unit × S3State × List Event :=
  let errLog : Event :=
    .logError "Could not copy object from %s/%s to %s/%s."
      [srcOid.key, srcOid.bucket, destOid.bucket, destOid.key]
  match copyFail with
  | some e => (.error (.clientError e), st, [.remoteCopy, errLog])
  | none =>
      match lookupObj st srcOid with
      | none => (.error (.clientError "NoSuchKey"), st, [.remoteCopy, errLog])
      | some o =>
          let st1 := setObj st destOid ⟨o.body, Acl.mk owner none⟩
          match waitFail with
          | some e => (.error (.clientError e), st1, [.remoteCopy, .remoteWait, errLog])
          | none =>
              (.ok (), st1,
                [.remoteCopy, .remoteWait,
                 .logInfo "Copied object from %s:%s to %s:%s."
                   [srcOid.key, srcOid.bucket, destOid.bucket, destOid.key]])

/-- ObjectWrapper.put_acl, upload.py lines 108-136: read the current ACL,
append one read grant for the email to the (truthiness-coerced) grant
list, and put the whole policy back with the owner that was read; on
ClientError log (object key only) and re-raise.  readFail and writeFail
inject a ClientError into the ACL read and the ACL put. -/
def ObjectWrapper.put_acl (oid : ObjId) (email : String) (st : S3State)
    (readFail writeFail : Option String) : Except S3Err Unit × S3State × List Event :=
  let errLog : Event := .logError "Could not add ACL to object %s." [oid.key]
  match readFail with
  | some e => (.error (.clientError e), st, [.remoteAclRead, errLog])
  | none =>
      match lookupObj st oid with
      | none => (.error (.clientError "NoSuchKey"), st, [.remoteAclRead, errLog])
      | some o =>
          let newGrants := grantsOrEmpty o.acl.grants ++ [readGrant email]
          match writeFail with
          | some e => (.error (.clientError e), st, [.remoteAclRead, .remoteAclWrite, errLog])
          | none =>
              let st1 := setObj st oid ⟨o.body, Acl.mk o.acl.owner (some newGrants)⟩
              (.ok (), st1,
                [.remoteAclRead, .remoteAclWrite,
                 .logInfo "Granted read access to %s." [email]])

/-- ObjectWrapper.get_acl, upload.py lines 138-153: read the ACL, log the
owner display name, return the ACL; on ClientError log (object key only)
and re-raise.  get_acl mutates no state. -/
def ObjectWrapper.get_acl (oid : ObjId) (st : S3State) (fail : Option String) :
    Except S3Err Acl × List Event :=
  let errLog : Event := .logError "Could not get ACL for object %s." [oid.key]
  match fail with
  | some e => (.error (.clientError e), [.remoteAclRead, errLog])
  | none =>
      match lookupObj st oid with
      | none => (.error (.clientError "NoSuchKey"), [.remoteAclRead, errLog])
      | some o =>
          (.ok o.acl,
            [.remoteAclRead,
             .logInfo "Got ACL for object %s owned by %s."
               [oid.key, o.acl.owner.displayName]])

/-! Concrete fixtures used by witnesses and counterexamples. -/

/-- A sample owner. -/
def wOwner : Owner := ⟨"sample-owner", "owner-canonical-id"⟩

/-- A pre-existing grant distinct from the one put_acl appends. -/
def wGrant0 : Grant := ⟨⟨"CanonicalUser", "owner-canonical-id"⟩, "FULL_CONTROL"⟩

/-- A sample stored object with one pre-existing grant. -/
def wObj : RemoteObject := ⟨[1, 2, 3], ⟨wOwner, some [wGrant0]⟩⟩

/-- A sample object identity. -/
def wOid : ObjId := ⟨"bucket1", "key1"⟩

/-- A sample remote state holding wObj at wOid. -/
def wSt : S3State := [(wOid, wObj)]

/-- A sample stored object whose policy has no grants. -/
def wObjNoGrants : RemoteObject := ⟨[7], ⟨wOwner, none⟩⟩

/-- A sample state holding an object whose policy has no grants. -/
def wStNoGrants : S3State := [(wOid, wObjNoGrants)]

/-- A local filesystem with no readable file. -/
def wFsEmpty : FileSystem := fun _ => none

/-- A local filesystem where exactly the file data.bin is readable. -/
def wFs : FileSystem := fun p => if p = "data.bin" then some [10, 20] else none

/-- A sample destination object identity for copy. -/
def wDest : ObjId := ⟨"bucket2", "key2"⟩

/-- A sample stored object for the listing fixture. -/
def fxObj : RemoteObject := ⟨[0], ⟨wOwner, none⟩⟩

/-- The listing fixture: a bucket holding keys js/a.js, img/b.png and
js/c.js. -/
def fxSt : S3State :=
  [(⟨"fixture-bucket", "js/a.js"⟩, fxObj),
   (⟨"fixture-bucket", "img/b.png"⟩, fxObj),
   (⟨"fixture-bucket", "js/c.js"⟩, fxObj)]

/-! Helper lemmas. -/

theorem lookupObj_setObj_self (st : S3State) (oid : ObjId) (o : RemoteObject) :
    lookupObj (setObj st oid o) oid = some o := by
  induction st with
  | nil => simp [setObj, lookupObj]
  | cons e rest ih =>
      by_cases h : e.1 = oid
      · simp [setObj, lookupObj, h]
      · simp [setObj, lookupObj, h, ih]

theorem grantsOrEmpty_some (G : List Grant) : grantsOrEmpty (some G) = G := by
  cases G <;> simp [grantsOrEmpty]

theorem strStartsWith_empty (k : String) : strStartsWith k "" = true := by
  simp [strStartsWith, List.isPrefixOf]

theorem filter_strStartsWith_empty (l : List (ObjId × RemoteObject)) :
    l.filter (fun e => strStartsWith e.1.key "") = l := by
  induction l with
  | nil => rfl
  | cons a t ih => simp [List.filter, strStartsWith_empty, ih]

/-- C1: for every object whose policy holds grant list G and owner O,
put_acl (grantReadAccess) followed by get_acl (getAccessPolicy) yields the
grant list G with exactly one new read grant for the email appended at the
end, all entries of G unchanged and in their original positions, and the
owner O preserved. -/
theorem C1_put_acl_appends_grant (oid : ObjId) (st : S3State) (o : RemoteObject)
    (G : List Grant) (email : String)
    (hobj : lookupObj st oid = some o) (hG : o.acl.grants = some G) :
    (ObjectWrapper.put_acl oid email st none none).1 = .ok () ∧
    (ObjectWrapper.get_acl oid (ObjectWrapper.put_acl oid email st none none).2.1 none).1
      = .ok (Acl.mk o.acl.owner (some (G ++ [readGrant email]))) := by
  simp [ObjectWrapper.put_acl, ObjectWrapper.get_acl, hobj, hG, grantsOrEmpty_some,
    lookupObj_setObj_self]

/-- Witness for C1 at a concrete state with one pre-existing grant. -/
theorem C1_put_acl_appends_grant_witness :
    (ObjectWrapper.put_acl wOid "user@example.com" wSt none none).1 = .ok () ∧
    (ObjectWrapper.get_acl wOid
        (ObjectWrapper.put_acl wOid "user@example.com" wSt none none).2.1 none).1
      = .ok (Acl.mk wObj.acl.owner (some ([wGrant0] ++ [readGrant "user@example.com"]))) :=
  C1_put_acl_appends_grant wOid wSt wObj [wGrant0] "user@example.com" (by decide) (by decide)

/-- C2: put given a file name that cannot be opened raises the local
IOError (the LocalResourceError of the spec), leaves the remote state
unchanged, and issues zero remote calls: the only events are the failed
open and the error log. -/
theorem C2_put_missing_file (oid : ObjId) (owner : Owner) (p : String)
    (fs : FileSystem) (st : S3State) (putFail waitFail : Option String)
    (h : fs p = none) :
    ObjectWrapper.put oid owner (.path p) fs st putFail waitFail
      = (.error .ioError, st,
         [.openFile p false, .logError "Expected file name or binary data, got %s." [p]]) ∧
    remoteCallCount (ObjectWrapper.put oid owner (.path p) fs st putFail waitFail).2.2 = 0 := by
  simp [ObjectWrapper.put, h, remoteCallCount, Event.isRemote, List.filter]

/-- Witness for C2 at a concrete unreadable path. -/
theorem C2_put_missing_file_witness :
    ObjectWrapper.put wOid wOwner (.path "missing.bin") wFsEmpty wSt none none
      = (.error .ioError, wSt,
         [.openFile "missing.bin" false,
          .logError "Expected file name or binary data, got %s." ["missing.bin"]]) ∧
    remoteCallCount
        (ObjectWrapper.put wOid wOwner (.path "missing.bin") wFsEmpty wSt none none).2.2 = 0 :=
  C2_put_missing_file wOid wOwner "missing.bin" wFsEmpty wSt none none rfl

/-- C3: whenever put opens a local file successfully, the file handle is
closed on every exit path: whatever the outcome of the remote put and of
the existence wait, the trace contains the closeHandle event. -/
theorem C3_put_closes_handle (oid : ObjId) (owner : Owner) (p : String)
    (content : List Nat) (fs : FileSystem) (st : S3State) (putFail waitFail : Option String)
    (h : fs p = some content) :
    Event.closeHandle ∈ (ObjectWrapper.put oid owner (.path p) fs st putFail waitFail).2.2 := by
  cases putFail <;> cases waitFail <;> simp [ObjectWrapper.put, h, putOpened]

/-- Witness for C3: a concrete readable file, with the remote put failing. -/
theorem C3_put_closes_handle_witness :
    Event.closeHandle ∈
      (ObjectWrapper.put wOid wOwner (.path "data.bin") wFs wSt (some "AccessDenied") none).2.2 :=
  C3_put_closes_handle wOid wOwner "data.bin" [10, 20] wFs wSt (some "AccessDenied") none
    (by decide)

/-- C4: round-trip fidelity: for all byte payloads P, a successful put of P
followed by get on the same object returns exactly P (no concurrent
mutation between the two calls: get runs on the state put produced). -/
theorem C4_put_get_roundtrip (oid : ObjId) (owner : Owner) (P : List Nat)
    (fs : FileSystem) (st : S3State) :
    (ObjectWrapper.get oid (ObjectWrapper.put oid owner (.bytes P) fs st none none).2.1 none).1
      = .ok P := by
  simp [ObjectWrapper.put, putOpened, ObjectWrapper.get, lookupObj_setObj_self]

/-- C5: list returns exactly the objects of the bucket whose key starts
with the prefix, and all objects when no prefix is given; in particular on
the fixture bucket with keys js/a.js, img/b.png, js/c.js the prefix js/
selects exactly js/a.js and js/c.js.  The empty-string prefix takes the
all-objects branch, which coincides with filtering by the empty prefix. -/
theorem C5_list_prefix_filter (st : S3State) (bucketName : String) (p : String) :
    (ObjectWrapper.list st bucketName (some p) none).1
      = .ok ((bucketEntries st bucketName).filter (fun e => strStartsWith e.1.key p)) ∧
    (ObjectWrapper.list st bucketName none none).1 = .ok (bucketEntries st bucketName) ∧
    (ObjectWrapper.list fxSt "fixture-bucket" (some "js/") none).1
      = .ok [(⟨"fixture-bucket", "js/a.js"⟩, fxObj), (⟨"fixture-bucket", "js/c.js"⟩, fxObj)] := by
  refine ⟨?_, by simp [ObjectWrapper.list], by rfl⟩
  by_cases hp : p = ""
  · subst hp
    simp [ObjectWrapper.list, filter_strStartsWith_empty]
  · simp [ObjectWrapper.list, hp]

/-- C6 counterexample: the claim says every operation logs a remote
failure with the resource identity (bucket and key), but put_acl logs only
the object key.  At bucket1/key1 with a failing ACL read, the whole run is
computed: the only log entry carries the key key1 and the bucket name
bucket1 appears in no log argument. -/
theorem C6_put_acl_failure_log_lacks_bucket :
    ObjectWrapper.put_acl wOid "user@example.com" wSt (some "AccessDenied") none
      = (.error (.clientError "AccessDenied"), wSt,
         [.remoteAclRead, .logError "Could not add ACL to object %s." ["key1"]]) ∧
    "bucket1" ∉ (["key1"] : List String) := by
  exact ⟨rfl, by decide⟩

/-- C6 amended: for every facade operation and every remote ClientError
code e, at every remote call of the operation (the main call, the
existence wait of put and copy, and the ACL read and the ACL write of
put_acl), the operation emits exactly one error log entry and re-raises
the same error unchanged, with no retry and no recovery; a failure before
any mutation leaves the state unchanged, while a wait failure after a
successful remote put or copy leaves the already-stored object in place
(no rollback); put, get, copy and list include the bucket in the log
arguments, while put_acl and get_acl log only the object key. -/
theorem C6_remote_failures_logged_and_reraised (oid destOid : ObjId) (owner : Owner)
    (st : S3State) (fs : FileSystem) (b content : List Nat) (p : String)
    (bucketName : String) (pfx : Option String) (email : String) (e : String)
    (o : RemoteObject) (ho : lookupObj st oid = some o) (hf : fs p = some content) :
    ObjectWrapper.put oid owner (.bytes b) fs st (some e) none
      = (.error (.clientError e), st,
         [.remotePut, .logError "Could not put object %s to bucket %s." [oid.key, oid.bucket]]) ∧
    ObjectWrapper.put oid owner (.bytes b) fs st none (some e)
      = (.error (.clientError e), setObj st oid ⟨b, publicReadAcl owner⟩,
         [.remotePut, .remoteWait,
          .logError "Could not put object %s to bucket %s." [oid.key, oid.bucket]]) ∧
    ObjectWrapper.put oid owner (.path p) fs st (some e) none
      = (.error (.clientError e), st,
         [.openFile p true, .remotePut,
          .logError "Could not put object %s to bucket %s." [oid.key, oid.bucket],
          .closeHandle]) ∧
    ObjectWrapper.put oid owner (.path p) fs st none (some e)
      = (.error (.clientError e), setObj st oid ⟨content, publicReadAcl owner⟩,
         [.openFile p true, .remotePut, .remoteWait,
          .logError "Could not put object %s to bucket %s." [oid.key, oid.bucket],
          .closeHandle]) ∧
    ObjectWrapper.get oid st (some e)
      = (.error (.clientError e),
         [.remoteGet, .logError "Could not get object %s from bucket %s." [oid.key, oid.bucket]]) ∧
    ObjectWrapper.list st bucketName pfx (some e)
      = (.error (.clientError e),
         [.remoteList, .logError "Could not get objects for bucket %s." [bucketName]]) ∧
    ObjectWrapper.copy oid destOid owner st (some e) none
      = (.error (.clientError e), st,
         [.remoteCopy, .logError "Could not copy object from %s/%s to %s/%s."
            [oid.key, oid.bucket, destOid.bucket, destOid.key]]) ∧
    ObjectWrapper.copy oid destOid owner st none (some e)
      = (.error (.clientError e), setObj st destOid ⟨o.body, Acl.mk owner none⟩,
         [.remoteCopy, .remoteWait,
          .logError "Could not copy object from %s/%s to %s/%s."
            [oid.key, oid.bucket, destOid.bucket, destOid.key]]) ∧
    ObjectWrapper.put_acl oid email st (some e) none
      = (.error (.clientError e), st,
         [.remoteAclRead, .logError "Could not add ACL to object %s." [oid.key]]) ∧
    ObjectWrapper.put_acl oid email st none (some e)
      = (.error (.clientError e), st,
         [.remoteAclRead, .remoteAclWrite,
          .logError "Could not add ACL to object %s." [oid.key]]) ∧
    ObjectWrapper.get_acl oid st (some e)
      = (.error (.clientError e),
         [.remoteAclRead, .logError "Could not get ACL for object %s." [oid.key]]) := by
  refine ⟨rfl, rfl, ?_, ?_, rfl, rfl, rfl, ?_, rfl, ?_, rfl⟩
  · simp [ObjectWrapper.put, hf, putOpened]
  · simp [ObjectWrapper.put, hf, putOpened]
  · simp [ObjectWrapper.copy, ho]
  · simp [ObjectWrapper.put_acl, ho]

/-- Witness for the amended C6 at a concrete object, bucket, readable
file and error code, exercising every failure-injection site. -/
theorem C6_remote_failures_logged_and_reraised_witness :
    ObjectWrapper.put wOid wOwner (.bytes [1]) wFs wSt (some "AccessDenied") none
      = (.error (.clientError "AccessDenied"), wSt,
         [.remotePut, .logError "Could not put object %s to bucket %s." ["key1", "bucket1"]]) ∧
    ObjectWrapper.put wOid wOwner (.bytes [1]) wFs wSt none (some "AccessDenied")
      = (.error (.clientError "AccessDenied"), setObj wSt wOid ⟨[1], publicReadAcl wOwner⟩,
         [.remotePut, .remoteWait,
          .logError "Could not put object %s to bucket %s." ["key1", "bucket1"]]) ∧
    ObjectWrapper.put wOid wOwner (.path "data.bin") wFs wSt (some "AccessDenied") none
      = (.error (.clientError "AccessDenied"), wSt,
         [.openFile "data.bin" true, .remotePut,
          .logError "Could not put object %s to bucket %s." ["key1", "bucket1"],
          .closeHandle]) ∧
    ObjectWrapper.put wOid wOwner (.path "data.bin") wFs wSt none (some "AccessDenied")
      = (.error (.clientError "AccessDenied"), setObj wSt wOid ⟨[10, 20], publicReadAcl wOwner⟩,
         [.openFile "data.bin" true, .remotePut, .remoteWait,
          .logError "Could not put object %s to bucket %s." ["key1", "bucket1"],
          .closeHandle]) ∧
    ObjectWrapper.get wOid wSt (some "AccessDenied")
      = (.error (.clientError "AccessDenied"),
         [.remoteGet,
          .logError "Could not get object %s from bucket %s." ["key1", "bucket1"]]) ∧
    ObjectWrapper.list wSt "bucket1" none (some "AccessDenied")
      = (.error (.clientError "AccessDenied"),
         [.remoteList, .logError "Could not get objects for bucket %s." ["bucket1"]]) ∧
    ObjectWrapper.copy wOid wDest wOwner wSt (some "AccessDenied") none
      = (.error (.clientError "AccessDenied"), wSt,
         [.remoteCopy, .logError "Could not copy object from %s/%s to %s/%s."
            ["key1", "bucket1", "bucket2", "key2"]]) ∧
    ObjectWrapper.copy wOid wDest wOwner wSt none (some "AccessDenied")
      = (.error (.clientError "AccessDenied"), setObj wSt wDest ⟨wObj.body, Acl.mk wOwner none⟩,
         [.remoteCopy, .remoteWait,
          .logError "Could not copy object from %s/%s to %s/%s."
            ["key1", "bucket1", "bucket2", "key2"]]) ∧
    ObjectWrapper.put_acl wOid "user@example.com" wSt (some "AccessDenied") none
      = (.error (.clientError "AccessDenied"), wSt,
         [.remoteAclRead, .logError "Could not add ACL to object %s." ["key1"]]) ∧
    ObjectWrapper.put_acl wOid "user@example.com" wSt none (some "AccessDenied")
      = (.error (.clientError "AccessDenied"), wSt,
         [.remoteAclRead, .remoteAclWrite,
          .logError "Could not add ACL to object %s." ["key1"]]) ∧
    ObjectWrapper.get_acl wOid wSt (some "AccessDenied")
      = (.error (.clientError "AccessDenied"),
         [.remoteAclRead, .logError "Could not get ACL for object %s." ["key1"]]) :=
  C6_remote_failures_logged_and_reraised wOid wDest wOwner wSt wFs [1] [10, 20] "data.bin"
    "bucket1" none "user@example.com" "AccessDenied" wObj (by decide) (by decide)

/-- C7: every successful put (raw bytes, or a readable file) performs the
existence wait before returning, returns no value beyond success, and
leaves the remote object holding the payload bytes with the public-read
grant applied at creation. -/
theorem C7_put_success_waits_and_applies_public_read (oid : ObjId) (owner : Owner)
    (data : PutData) (fs : FileSystem) (st : S3State) (B : List Nat)
    (h : payloadBytes fs data = some B) :
    (ObjectWrapper.put oid owner data fs st none none).1 = .ok () ∧
    Event.remoteWait ∈ (ObjectWrapper.put oid owner data fs st none none).2.2 ∧
    lookupObj (ObjectWrapper.put oid owner data fs st none none).2.1 oid
      = some ⟨B, publicReadAcl owner⟩ ∧
    publicReadGrant ∈ grantsOrEmpty (publicReadAcl owner).grants := by
  cases data with
  | bytes b =>
      simp only [payloadBytes, Option.some.injEq] at h
      subst h
      simp [ObjectWrapper.put, putOpened, lookupObj_setObj_self, publicReadAcl, grantsOrEmpty]
  | path p =>
      simp only [payloadBytes] at h
      simp [ObjectWrapper.put, h, putOpened, lookupObj_setObj_self, publicReadAcl, grantsOrEmpty]

/-- Witness for C7 at a concrete byte payload. -/
theorem C7_put_success_witness :
    (ObjectWrapper.put wOid wOwner (.bytes [5, 6]) wFsEmpty wSt none none).1 = .ok () ∧
    Event.remoteWait ∈ (ObjectWrapper.put wOid wOwner (.bytes [5, 6]) wFsEmpty wSt none none).2.2 ∧
    lookupObj (ObjectWrapper.put wOid wOwner (.bytes [5, 6]) wFsEmpty wSt none none).2.1 wOid
      = some ⟨[5, 6], publicReadAcl wOwner⟩ ∧
    publicReadGrant ∈ grantsOrEmpty (publicReadAcl wOwner).grants :=
  C7_put_success_waits_and_applies_public_read wOid wOwner (.bytes [5, 6]) wFsEmpty wSt [5, 6] rfl

/-- C8: a successful copy waits for the destination to exist before
returning, and get on the destination afterwards returns exactly the bytes
get returned on the source at the time of the copy. -/
theorem C8_copy_preserves_bytes (srcOid destOid : ObjId) (owner : Owner)
    (st : S3State) (o : RemoteObject)
    (h : lookupObj st srcOid = some o) :
    (ObjectWrapper.copy srcOid destOid owner st none none).1 = .ok () ∧
    Event.remoteWait ∈ (ObjectWrapper.copy srcOid destOid owner st none none).2.2 ∧
    (ObjectWrapper.get destOid (ObjectWrapper.copy srcOid destOid owner st none none).2.1 none).1
      = .ok o.body ∧
    (ObjectWrapper.get srcOid st none).1 = .ok o.body := by
  simp [ObjectWrapper.copy, h, ObjectWrapper.get, lookupObj_setObj_self]

/-- Witness for C8: copying bucket1/key1 to bucket2/key2. -/
theorem C8_copy_preserves_bytes_witness :
    (ObjectWrapper.copy wOid wDest wOwner wSt none none).1 = .ok () ∧
    Event.remoteWait ∈ (ObjectWrapper.copy wOid wDest wOwner wSt none none).2.2 ∧
    (ObjectWrapper.get wDest (ObjectWrapper.copy wOid wDest wOwner wSt none none).2.1 none).1
      = .ok wObj.body ∧
    (ObjectWrapper.get wOid wSt none).1 = .ok wObj.body :=
  C8_copy_preserves_bytes wOid wDest wOwner wSt wObj (by decide)

/-- C9: because line 73 of upload.py tests the truthiness of the prefix,
list with the empty-string prefix behaves exactly as list with no prefix:
same result, same state reads, same events, for every bucket and every
failure behaviour of the remote client. -/
theorem C9_list_empty_prefix (st : S3State) (bucketName : String) (fail : Option String) :
    ObjectWrapper.list st bucketName (some "") fail
      = ObjectWrapper.list st bucketName none fail := by
  cases fail <;> simp [ObjectWrapper.list]

/-- C10: put_acl writes back exactly the owner it read at the start of the
call, leaves the object body unchanged, and only the grant list changes;
when the policy read back has no grants, the list written contains only
the single new grant. -/
theorem C10_put_acl_preserves_owner_and_body (oid : ObjId) (email : String)
    (st : S3State) (o : RemoteObject) (h : lookupObj st oid = some o) :
    (ObjectWrapper.put_acl oid email st none none).1 = .ok () ∧
    lookupObj (ObjectWrapper.put_acl oid email st none none).2.1 oid
      = some ⟨o.body,
          Acl.mk o.acl.owner (some (grantsOrEmpty o.acl.grants ++ [readGrant email]))⟩ ∧
    (o.acl.grants = none →
      lookupObj (ObjectWrapper.put_acl oid email st none none).2.1 oid
        = some ⟨o.body, Acl.mk o.acl.owner (some [readGrant email])⟩) := by
  refine ⟨by simp [ObjectWrapper.put_acl, h], ?_, ?_⟩
  · simp [ObjectWrapper.put_acl, h, lookupObj_setObj_self]
  · intro hg
    simp [ObjectWrapper.put_acl, h, hg, lookupObj_setObj_self, grantsOrEmpty]

/-- Witness for C10 at a concrete object whose policy has no grants. -/
theorem C10_put_acl_preserves_owner_and_body_witness :
    (ObjectWrapper.put_acl wOid "user@example.com" wStNoGrants none none).1 = .ok () ∧
    lookupObj (ObjectWrapper.put_acl wOid "user@example.com" wStNoGrants none none).2.1 wOid
      = some ⟨wObjNoGrants.body,
          Acl.mk wObjNoGrants.acl.owner
            (some (grantsOrEmpty wObjNoGrants.acl.grants ++ [readGrant "user@example.com"]))⟩ ∧
    (wObjNoGrants.acl.grants = none →
      lookupObj (ObjectWrapper.put_acl wOid "user@example.com" wStNoGrants none none).2.1 wOid
        = some ⟨wObjNoGrants.body,
            Acl.mk wObjNoGrants.acl.owner (some [readGrant "user@example.com"])⟩) :=
  C10_put_acl_preserves_owner_and_body wOid "user@example.com" wStNoGrants wObjNoGrants (by decide)
